import Mathlib

/-!
# Verification of the UCP PR-triage agent

Shallow embedding of `src/agents/pr_triage_agent/agent.py` (the tool
functions `get_pull_request_details`, `add_label_to_pr`,
`add_comment_to_pr`, `get_repo_config`, and the startup loading of the
markdown guideline documents), together with a model of the triage
decision policy (human-involvement detection, duplicate suppression,
skip rules) that the repository states only in natural language inside
`BASE_PROMPT_TEMPLATE` and the specification states as algorithms.

I/O collaborators from `pr_triage_agent.utils` (network requests, file
reads) are passed in as explicit oracles: an `Except` value models a
Python call that either returns normally (`.ok`) or raises
`requests.exceptions.RequestException` / `FileNotFoundError` (`.error`).
-/

namespace UCPTriage

/-- The bot-identity marker embedded in every automated comment
(`"**Response from ADK Triaging Agent**"` in the prompt and the spec). -/
def BOT_MARKER : String := "**Response from ADK Triaging Agent**"

/-- Prefix of commit messages filtered out by `get_pull_request_details`
(`"Merge branch 'main' into"` in the source; apostrophes written as
escapes). -/
def mergeMsgPrefix : String := "Merge branch \x27main\x27 into"

/-- A comment node from the GraphQL snapshot: `author.login` and `body`. -/
structure Comment where
  author : String
  body : String
deriving DecidableEq

/-- A commit node from the GraphQL snapshot: `commit.url` and
`commit.message`. -/
structure CommitNode where
  url : String
  message : String
deriving DecidableEq

/-- The pull-request snapshot built by the GraphQL query in
`get_pull_request_details`: number, title, body, state, `author.login`,
label names, changed-file paths, comments, commit nodes, and the
status-check rollup (kept abstract as a string). -/
structure PRData where
  number : Nat
  title : String
  body : String
  state : String
  author : String
  labels : List String
  files : List String
  comments : List Comment
  commits : List CommitNode
  statusCheckRollup : String
deriving DecidableEq

/-- Outcome of `run_graphql_query` as observed by
`get_pull_request_details`: the call raises a transport error
(`RequestException`), the response carries an `errors` key, the
`pullRequest` field is null, or a pull-request snapshot is returned. -/
inductive GqlOutcome where
  | raise (e : String)
  | errors (errs : String)
  | notFound
  | ok (pr : PRData)
deriving DecidableEq

/-- Outcome of `get_diff`: raises a transport error or returns the diff
text (modelled as a character list, matching Python string slicing). -/
inductive DiffOutcome where
  | raise (e : String)
  | ok (text : List Char)
deriving DecidableEq

/-- Result of `get_pull_request_details`. The `error` constructor models
`error_response(msg)` from `pr_triage_agent.utils` (not under `src/`),
which per the spec reports the failure upward as a non-success result
carrying the message. On success Python stores the truncated diff inside
the `pr` dict (`pr["diff"]`); here it is the second field. -/
inductive GetPRResult where
  | error (error_message : String)
  | success (pull_request : PRData) (diff : List Char)
deriving DecidableEq

/-- Embedding of `get_pull_request_details` (agent.py lines 194-295).
The GraphQL call and the diff fetch are supplied as oracle outcomes.
Mirrors the source: propagate `errors`, report a missing PR, filter out
commits whose message starts with `Merge branch 'main' into` (only when
the commit list is non-empty, matching the `if original_commits:` guard),
truncate the diff to its first 10000 characters, and turn a raised
`RequestException` into an error result. -/
def get_pull_request_details (gql : GqlOutcome) (diffFetch : DiffOutcome)
    (pr_number : Nat) : GetPRResult :=
  match gql with
  | .raise e => .error e
  | .errors errs => .error errs
  | .notFound => .error ("Pull Request #" ++ toString pr_number ++ " not found.")
  | .ok pr =>
    let filtered :=
      if pr.commits.isEmpty then pr.commits
      else pr.commits.filter (fun c => !(c.message.startsWith mergeMsgPrefix))
    match diffFetch with
    | .raise e => .error e
    | .ok d => .success { pr with commits := filtered } (d.take 10000)

/-- Result of `add_label_to_pr`. The `error` constructor models
`error_response(msg)` from `pr_triage_agent.utils` (not under `src/`):
a non-success result carrying the message. -/
inductive AddLabelResult where
  | error (error_message : String)
  | success (applied_label : String) (response : String)
deriving DecidableEq

/-- A POST request to the hosting platform: url and payload parts. -/
structure PostReq where
  url : String
  payload : List String
deriving DecidableEq

/-- The labels endpoint url built in `add_label_to_pr`:
`{GITHUB_BASE_URL}/repos/{OWNER}/{REPO}/issues/{pr_number}/labels`. -/
def label_url (base owner repo : String) (pr_number : Nat) : String :=
  base ++ "/repos/" ++ owner ++ "/" ++ repo ++ "/issues/" ++
    toString pr_number ++ "/labels"

/-- Embedding of `add_label_to_pr` (agent.py lines 298-328), with
`post_request` supplied as an oracle mapping (url, payload) to either a
response or a raised `RequestException`. Besides the Python return value
it also returns the list of POST requests actually performed, so that
"performs no labeling request" is expressible. A label outside
`ALLOWED_LABELS` is rejected before any request is made. -/
def add_label_to_pr (ALLOWED_LABELS : List String)
    (post : String → List String → Except String String)
    (base owner repo : String) (pr_number : Nat) (label : String) :
    AddLabelResult × List PostReq :=
  if label ∉ ALLOWED_LABELS then
    (.error ("Error: Label " ++ label ++ " is not an allowed label. Will not apply."),
      [])
  else
    let url := label_url base owner repo pr_number
    match post url [label] with
    | .error e => (.error ("Error: " ++ e), [⟨url, [label]⟩])
    | .ok resp => (.success label resp, [⟨url, [label]⟩])

/-- Result of `add_comment_to_pr`. The `error` constructor models
`error_response(msg)` from `pr_triage_agent.utils` (not under `src/`). -/
inductive AddCommentResult where
  | error (error_message : String)
  | success (added_comment : String)
deriving DecidableEq

/-- Embedding of `add_comment_to_pr` (agent.py lines 331-354):
`post_request` on the issue-comments endpoint with payload
`{"body": comment}` (modelled as the comment string); a raised
`RequestException` becomes an error result, otherwise success carrying
the added comment (the response body is discarded, as in the source). -/
def add_comment_to_pr (post : String → String → Except String String)
    (base owner repo : String) (pr_number : Nat) (comment : String) :
    AddCommentResult :=
  let url := base ++ "/repos/" ++ owner ++ "/" ++ repo ++ "/issues/" ++
    toString pr_number ++ "/comments"
  match post url comment with
  | .error e => .error ("Error: " ++ e)
  | .ok _ => .success comment

/-- The repository configuration files visible to `get_repo_config`:
`prompts/{name}.txt` mapped to its text when present, and
`configs/{name}.json` mapped to its parsed `allowed_labels` list when
present (`config.get("allowed_labels", [])` already applied; a missing
file is `none`). -/
structure RepoFS where
  prompts : String → Option String
  configs : String → Option (List String)

/-- Embedding of `get_repo_config` (agent.py lines 134-161).
`buildPrompt` stands for substituting the repo-specific guidelines into
`BASE_PROMPT_TEMPLATE` (templating glue, opaque here). The `try` block
reads the repo-specific prompt and config; a `FileNotFoundError` from
either (the `_, _` cases) enters the `except` branch, which falls back
to the `ucp` prompt and config — and there a `FileNotFoundError` is NOT
caught, so it propagates to the caller (`.error ()`). -/
def get_repo_config (buildPrompt : String → String) (fs : RepoFS)
    (repo_name : String) : Except Unit (String × List String) :=
  match fs.prompts repo_name, fs.configs repo_name with
  | some g, some labels => .ok (buildPrompt g, labels)
  | _, _ =>
    match fs.prompts "ucp", fs.configs "ucp" with
    | some g, some labels => .ok (buildPrompt g, labels)
    | _, _ => .error ()

/-- The left and right curly-brace characters (written as escapes). -/
def openBrace : Char := '\x7b'

/-- See `openBrace`. -/
def closeBrace : Char := '\x7d'

/-- Python `str.replace(old, new)` for single-character `old`/`new`:
substitutes every occurrence of `old` by `new`. Texts are character
lists. -/
def pyReplaceChar (s : List Char) (old new : Char) : List Char :=
  s.map (fun c => if c = old then new else c)

/-- Embedding of the startup loading of `CONTRIBUTING_MD` /
`PULL_REQUEST_TEMPLATE_MD` (agent.py lines 166-184): read the file named
by the environment variable and replace each `{` by `[` and each `}` by
`]`; on `KeyError` (env var unset, `env = none`) or `FileNotFoundError`
(`fileRead = .error`) use the fixed placeholder text instead. -/
def load_markdown (env : Option String)
    (fileRead : String → Except Unit (List Char))
    (placeholder : List Char) : List Char :=
  match env with
  | none => placeholder
  | some path =>
    match fileRead path with
    | .error _ => placeholder
    | .ok content =>
      pyReplaceChar (pyReplaceChar content openBrace '[') closeBrace ']'

/-- The placeholder text used when CONTRIBUTING.md cannot be loaded
(agent.py line 175). -/
def contributingPlaceholder : List Char := "CONTRIBUTING.md not found.".data

/-- The placeholder text used when pull_request_template.md cannot be
loaded (agent.py line 184). -/
def pullRequestTemplatePlaceholder : List Char :=
  "pull_request_template.md not found.".data

/-! ## The triage decision policy

The decision policy exists in the repository only as natural-language
instructions inside `BASE_PROMPT_TEMPLATE` (agent.py lines 98-124),
executed by a generative model. The definitions below are therefore
modelled from the specification, whose sections 4.1, 4.3 and 4.5 state
the policy as algorithms (matching the prompt's wording). -/

/-- A triage decision (spec section 3): skip, post one comment, apply
one label, or both. -/
inductive Decision where
  | Skip (reason : String)
  | Comment (text : String)
  | Label (name : String)
  | LabelAndComment (name : String) (text : String)
deriving DecidableEq

/-- The label a decision applies, if any. -/
def Decision.labelOf : Decision → Option String
  | .Label n => some n
  | .LabelAndComment n _ => some n
  | _ => none

/-- The comment a decision posts, if any. -/
def Decision.commentOf : Decision → Option String
  | .Comment t => some t
  | .LabelAndComment _ t => some t
  | _ => none

/-- Modelled from the spec: `HumanInvolvementDetector.involved` (spec
section 4.1), matching prompt lines 105-110, is not executable code in
the repository. Scan `item.comments` in order; a comment counts as human
involvement iff its author differs from the item author AND its body
does not contain the bot-identity marker; true on the first match, false
when none is found (in particular on an empty list). The item is
represented by its author login and comment list, the only fields the
detector reads. -/
def humanInvolved (itemAuthor : String) (comments : List Comment) : Bool :=
  comments.any (fun c =>
    decide (c.author ≠ itemAuthor) &&
      !(decide (BOT_MARKER.data <:+: c.body.data)))

/-- Modelled from the spec: `DuplicateSuppressor.should_comment` (spec
section 4.3), matching prompt lines 75-82, is not executable code in the
repository. A prior bot comment is represented by the set of
guideline-section identifiers it raised (`[]` for a "looks good"
acknowledgment); `prior` is chronological, most recent last. Rule 1:
no prior bot comment allows. Rule 5 and the prompt's
"do not comment again that it looks good": nothing currently missing
suppresses. Rule 3: a non-empty current set all of whose sections were
already raised by the most recent bot comment suppresses. Rule 4: a
current section not previously raised allows. `proposed_text` is part of
the spec's contract but unused by the policy. -/
def should_comment (_proposed_text : String) (prior : List (List String))
    (current_missing_sections : List String) : Bool :=
  match prior.getLast? with
  | none => true
  | some raised =>
    if current_missing_sections.isEmpty then false
    else if current_missing_sections.all (fun s => decide (s ∈ raised)) then false
    else true

/-- Modelled from the spec: `TriageDecisionEngine` (spec section 4.5),
matching prompt lines 98-124, is not executable code in the repository.
Stages in order: skip when the item is closed or already carries an
allowed-taxonomy label; skip when a human reviewer is involved; when
guideline sections are missing, comment exactly when the duplicate
suppressor allows; when all are satisfied, apply the selected label
(with an acknowledgment comment only when the suppressor allows), or
skip without guessing when the selector found no confident match. The
guideline evaluator's output (`missing`) and the label selector's output
(`selected`) are abstract inputs, as forced by spec section 9. -/
def engineDecide (taxonomy : List String) (item : PRData)
    (missing : List String) (selected : Option String)
    (priorBot : List (List String)) (commentText ackText : String) :
    Decision :=
  if item.state = "CLOSED" then .Skip "closed"
  else if item.labels.any (fun l => decide (l ∈ taxonomy)) then
    .Skip "already labeled"
  else if humanInvolved item.author item.comments then .Skip "human involved"
  else if missing.isEmpty then
    match selected with
    | some name =>
      if should_comment ackText priorBot missing then
        .LabelAndComment name ackText
      else .Label name
    | none => .Skip "no confident category"
  else
    if should_comment commentText priorBot missing then .Comment commentText
    else .Skip "duplicate comment suppressed"

/-! ## Theorems -/

/-- C1: for every pull-request number and label, if the label is not in
`ALLOWED_LABELS` then `add_label_to_pr` returns the error result and
performs no labeling request, so it never applies a name outside the
provided taxonomy. -/
theorem add_label_rejects_nontaxonomy (ALLOWED_LABELS : List String)
    (post : String → List String → Except String String)
    (base owner repo : String) (pr_number : Nat) (label : String)
    (h : label ∉ ALLOWED_LABELS) :
    add_label_to_pr ALLOWED_LABELS post base owner repo pr_number label =
      (.error ("Error: Label " ++ label ++
        " is not an allowed label. Will not apply."), []) := by
  simp [add_label_to_pr, h]

/-- Witness for `add_label_rejects_nontaxonomy` at a concrete input. -/
theorem add_label_rejects_nontaxonomy_witness :
    add_label_to_pr ["core-protocol", "governance"]
      (fun _ _ => Except.ok "201") "https://api.github.com"
      "Universal-Commerce-Protocol" "ucp" 42 "wontfix" =
      (.error ("Error: Label wontfix is not an allowed label. Will not apply."),
        []) :=
  add_label_rejects_nontaxonomy ["core-protocol", "governance"]
    (fun _ _ => Except.ok "201") "https://api.github.com"
    "Universal-Commerce-Protocol" "ucp" 42 "wontfix" (by decide)

/-- C7: when the underlying request raises a transport error
(`RequestException`, modelled as the oracle returning `.error e`),
`get_pull_request_details` (on the GraphQL call and on the diff fetch),
`add_label_to_pr` (for an allowed label, so the request is attempted)
and `add_comment_to_pr` each return the error result carrying the
failure instead of a success status. -/
theorem transport_errors_reported (e : String) (df : DiffOutcome)
    (pr_number : Nat) (ALLOWED_LABELS : List String) (label : String)
    (base owner repo : String) (comment : String) (pr : PRData)
    (hmem : label ∈ ALLOWED_LABELS) :
    get_pull_request_details (.raise e) df pr_number = .error e ∧
    get_pull_request_details (.ok pr) (.raise e) pr_number = .error e ∧
    (add_label_to_pr ALLOWED_LABELS (fun _ _ => .error e) base owner repo
        pr_number label).1 = .error ("Error: " ++ e) ∧
    add_comment_to_pr (fun _ _ => .error e) base owner repo pr_number comment =
      .error ("Error: " ++ e) := by
  refine ⟨rfl, rfl, ?_, rfl⟩
  simp [add_label_to_pr, hmem]

/-- Witness for `transport_errors_reported` at a concrete input. -/
theorem transport_errors_reported_witness :
    get_pull_request_details (.raise "connection reset") (.ok []) 42 =
      .error "connection reset" ∧
    get_pull_request_details
        (.ok { number := 42, title := "t", body := "b", state := "OPEN",
               author := "alice", labels := [], files := [], comments := [],
               commits := [], statusCheckRollup := "SUCCESS" })
        (.raise "connection reset") 42 = .error "connection reset" ∧
    (add_label_to_pr ["governance"] (fun _ _ => .error "connection reset")
        "https://api.github.com" "Universal-Commerce-Protocol" "ucp" 42
        "governance").1 = .error ("Error: " ++ "connection reset") ∧
    add_comment_to_pr (fun _ _ => .error "connection reset")
        "https://api.github.com" "Universal-Commerce-Protocol" "ucp" 42
        "hello" = .error ("Error: " ++ "connection reset") :=
  transport_errors_reported "connection reset" (.ok []) 42 ["governance"]
    "governance" "https://api.github.com" "Universal-Commerce-Protocol" "ucp"
    "hello"
    { number := 42, title := "t", body := "b", state := "OPEN",
      author := "alice", labels := [], files := [], comments := [],
      commits := [], statusCheckRollup := "SUCCESS" }
    (by decide)

/-- C8: on a successful fetch, the snapshot diff is the fetched diff
truncated to its first 10000 characters: it has length
min(10000, length), is at most 10000 characters, and is a prefix of the
fetched text. -/
theorem diff_truncated_to_10000 (pr : PRData) (d : List Char)
    (pr_number : Nat) :
    (∃ prOut : PRData,
      get_pull_request_details (.ok pr) (.ok d) pr_number =
        .success prOut (d.take 10000)) ∧
    (d.take 10000).length = min 10000 d.length ∧
    (d.take 10000).length ≤ 10000 ∧
    d.take 10000 <+: d :=
  ⟨⟨_, rfl⟩, d.length_take 10000, by
    rw [List.length_take]; exact Nat.min_le_left _ _, List.take_prefix 10000 d⟩

/-- C9: on a successful fetch, exactly the commit nodes whose message
starts with `Merge branch 'main' into` are removed, the remaining
commits keep their relative order (the result is a sublist of the
original), and no returned commit has such a message. -/
theorem merge_commits_filtered (pr : PRData) (d : List Char)
    (pr_number : Nat) :
    get_pull_request_details (.ok pr) (.ok d) pr_number =
      .success
        { pr with commits :=
            pr.commits.filter (fun c => !(c.message.startsWith mergeMsgPrefix)) }
        (d.take 10000) ∧
    (∀ c ∈ pr.commits.filter (fun c => !(c.message.startsWith mergeMsgPrefix)),
      c.message.startsWith mergeMsgPrefix = false) ∧
    (pr.commits.filter
      (fun c => !(c.message.startsWith mergeMsgPrefix))).Sublist pr.commits := by
  refine ⟨?_, ?_, List.filter_sublist _⟩
  · rcases h : pr.commits with _ | ⟨c, cs⟩ <;>
      simp [get_pull_request_details, h]
  · intro c hc
    have := (List.mem_filter.mp hc).2
    simpa using this

/-- After substituting `old` by a different `new`, `old` no longer
occurs. -/
theorem pyReplaceChar_not_mem (s : List Char) (old new : Char)
    (h : new ≠ old) : old ∉ pyReplaceChar s old new := by
  simp only [pyReplaceChar, List.mem_map, not_exists]
  rintro c ⟨hc, heq⟩
  by_cases hco : c = old
  · rw [hco] at heq; simp at heq; exact h heq
  · rw [if_neg hco] at heq; exact hco heq

/-- Every character of the substituted text is the replacement or comes
from the original text. -/
theorem pyReplaceChar_mem_imp (s : List Char) (old new x : Char)
    (hx : x ∈ pyReplaceChar s old new) : x = new ∨ x ∈ s := by
  simp only [pyReplaceChar, List.mem_map] at hx
  rcases hx with ⟨c, hc, heq⟩
  by_cases hco : c = old
  · rw [hco] at heq; simp at heq; exact Or.inl heq.symm
  · rw [if_neg hco] at heq; exact Or.inr (heq ▸ hc)

/-- C10: each of the two markdown texts interpolated into the agent
instruction — `CONTRIBUTING_MD` and `PULL_REQUEST_TEMPLATE_MD`, loaded by
the same pattern with their respective placeholders — never contains a
curly brace (each `{` became `[` and each `}` became `]`), and when the
environment variable is unset or the file is missing it is the fixed
placeholder text, so the later template-formatting step cannot fail on
embedded braces. -/
theorem markdown_braces_sanitized (env : Option String)
    (fileRead : String → Except Unit (List Char)) (placeholder : List Char)
    (hplace : placeholder = contributingPlaceholder ∨
      placeholder = pullRequestTemplatePlaceholder) :
    openBrace ∉ load_markdown env fileRead placeholder ∧
    closeBrace ∉ load_markdown env fileRead placeholder ∧
    (env = none →
      load_markdown env fileRead placeholder = placeholder) ∧
    (∀ p, env = some p → fileRead p = .error () →
      load_markdown env fileRead placeholder = placeholder) ∧
    (∀ p content, env = some p → fileRead p = .ok content →
      load_markdown env fileRead placeholder =
        pyReplaceChar (pyReplaceChar content openBrace '[') closeBrace ']') := by
  have hplaceOpen : openBrace ∉ placeholder := by
    rcases hplace with h | h <;> subst h <;> decide
  have hplaceClose : closeBrace ∉ placeholder := by
    rcases hplace with h | h <;> subst h <;> decide
  have hbraces : ∀ content : List Char,
      openBrace ∉
        pyReplaceChar (pyReplaceChar content openBrace '[') closeBrace ']' ∧
      closeBrace ∉
        pyReplaceChar (pyReplaceChar content openBrace '[') closeBrace ']' := by
    intro content
    constructor
    · intro hmem
      rcases pyReplaceChar_mem_imp _ _ _ _ hmem with h | h
      · exact absurd h (by decide)
      · exact pyReplaceChar_not_mem content openBrace '[' (by decide) h
    · exact pyReplaceChar_not_mem _ closeBrace ']' (by decide)
  rcases env with _ | p
  · refine ⟨hplaceOpen, hplaceClose, fun _ => rfl, ?_, ?_⟩
    · intro q hq
      exact nomatch hq
    · intro q c hq
      exact nomatch hq
  · rcases hf : fileRead p with _ | content
    · refine ⟨?_, ?_, ?_, ?_, ?_⟩
      · simpa [load_markdown, hf] using hplaceOpen
      · simpa [load_markdown, hf] using hplaceClose
      · intro h
        exact nomatch h
      · intro q hq hc
        simp [load_markdown, hf]
      · intro q c hq hc
        rw [(Option.some_inj.mp hq : p = q)] at hf
        rw [hf] at hc
        exact nomatch hc
    · refine ⟨?_, ?_, ?_, ?_, ?_⟩
      · simpa [load_markdown, hf] using (hbraces content).1
      · simpa [load_markdown, hf] using (hbraces content).2
      · intro h
        exact nomatch h
      · intro q hq hc
        rw [(Option.some_inj.mp hq : p = q)] at hf
        rw [hf] at hc
        exact nomatch hc
      · intro q c hq hc
        have hpq : p = q := Option.some_inj.mp hq
        subst hpq
        rw [hf] at hc
        have hcc : content = c := by injection hc
        subst hcc
        simp [load_markdown, hf]

/-- Witness for `markdown_braces_sanitized` at concrete inputs: with the
environment variable unset, each of the two loads yields its own
placeholder text. -/
theorem markdown_braces_sanitized_witness :
    load_markdown none (fun _ => .error ()) contributingPlaceholder =
      contributingPlaceholder ∧
    load_markdown none (fun _ => .error ()) pullRequestTemplatePlaceholder =
      pullRequestTemplatePlaceholder :=
  ⟨(markdown_braces_sanitized none (fun _ => .error ())
      contributingPlaceholder (Or.inl rfl)).2.2.1 rfl,
   (markdown_braces_sanitized none (fun _ => .error ())
      pullRequestTemplatePlaceholder (Or.inr rfl)).2.2.1 rfl⟩

/-- A file system holding only the generic `ucp` prompt and config: no
repo-specific configuration exists for any other repository name. -/
def fsUcpOnly : RepoFS where
  prompts := fun n => if n = "ucp" then some "ucp guidelines" else none
  configs := fun n => if n = "ucp" then some ["core-protocol"] else none

/-- C2 counterexample: for the repository name `"other-repo"`, no
guideline document or taxonomy configuration is available, yet
`get_repo_config` does not propagate the missing-configuration
condition — it silently falls back to the generic `ucp` configuration
and returns it successfully. -/
theorem get_repo_config_silently_falls_back :
    get_repo_config id fsUcpOnly "other-repo" =
      .ok ("ucp guidelines", ["core-protocol"]) ∧
    get_repo_config id fsUcpOnly "other-repo" ≠ .error () := by
  constructor
  · simp [get_repo_config, fsUcpOnly]
  · simp [get_repo_config, fsUcpOnly]

/-- C2 amended: when the repo-specific guideline document or taxonomy
config is missing, `get_repo_config` falls back to the generic `ucp`
configuration when that is available; only when the `ucp` fallback
prompt or config is itself missing does the missing-configuration
condition propagate to the caller (no decision made, no default taken). -/
theorem get_repo_config_fallback_behavior (buildPrompt : String → String)
    (fs : RepoFS) (repo_name : String)
    (hmiss : fs.prompts repo_name = none ∨ fs.configs repo_name = none) :
    (∀ g labels, fs.prompts "ucp" = some g → fs.configs "ucp" = some labels →
      get_repo_config buildPrompt fs repo_name = .ok (buildPrompt g, labels)) ∧
    ((fs.prompts "ucp" = none ∨ fs.configs "ucp" = none) →
      get_repo_config buildPrompt fs repo_name = .error ()) := by
  have hfall : get_repo_config buildPrompt fs repo_name =
      (match fs.prompts "ucp", fs.configs "ucp" with
       | some g, some labels => .ok (buildPrompt g, labels)
       | _, _ => .error ()) := by
    unfold get_repo_config
    rcases hp : fs.prompts repo_name with _ | g
    · rcases hc : fs.configs repo_name with _ | ls <;> rfl
    · rcases hc : fs.configs repo_name with _ | ls
      · rfl
      · rcases hmiss with h | h
        · rw [hp] at h
          exact nomatch h
        · rw [hc] at h
          exact nomatch h
  constructor
  · intro g labels hg hl
    rw [hfall, hg, hl]
  · rintro (h | h)
    · rw [hfall, h]
    · rw [hfall, h]
      rcases fs.prompts "ucp" with _ | g <;> rfl

/-- Witness for `get_repo_config_fallback_behavior` at a concrete
input. -/
theorem get_repo_config_fallback_behavior_witness :
    get_repo_config id fsUcpOnly "missing-repo" =
      .ok ("ucp guidelines", ["core-protocol"]) :=
  (get_repo_config_fallback_behavior id fsUcpOnly "missing-repo"
      (Or.inl (by decide))).1
    "ucp guidelines" ["core-protocol"] (by decide) (by decide)

/-- A concrete open item already carrying an allowed-taxonomy label. -/
def itemLabeled : PRData :=
  { number := 7, title := "Add cart schema", body := "body", state := "OPEN",
    author := "alice", labels := ["governance"], files := ["README.md"],
    comments := [], commits := [], statusCheckRollup := "SUCCESS" }

/-- C3: for every item snapshot already carrying at least one
allowed-taxonomy label, the engine emits `Skip` — it neither labels nor
comments — regardless of all other facts, so a re-run never adds a
second taxonomy label. -/
theorem at_most_one_label (taxonomy : List String) (item : PRData)
    (missing : List String) (selected : Option String)
    (priorBot : List (List String)) (commentText ackText : String)
    (h : ∃ l ∈ item.labels, l ∈ taxonomy) :
    (∃ r, engineDecide taxonomy item missing selected priorBot commentText
        ackText = .Skip r) ∧
    (engineDecide taxonomy item missing selected priorBot commentText
        ackText).labelOf = none ∧
    (engineDecide taxonomy item missing selected priorBot commentText
        ackText).commentOf = none := by
  have hany : item.labels.any (fun l => decide (l ∈ taxonomy)) = true := by
    rcases h with ⟨l, hl, ht⟩
    exact List.any_eq_true.mpr ⟨l, hl, by simpa using ht⟩
  by_cases hs : item.state = "CLOSED"
  · refine ⟨⟨"closed", ?_⟩, ?_, ?_⟩ <;>
      simp [engineDecide, hs, Decision.labelOf, Decision.commentOf]
  · refine ⟨⟨"already labeled", ?_⟩, ?_, ?_⟩ <;>
      simp [engineDecide, hs, hany, Decision.labelOf, Decision.commentOf]

/-- Witness for `at_most_one_label` at a concrete input. -/
theorem at_most_one_label_witness :
    (engineDecide ["governance", "documentation"] itemLabeled ["Category"]
      (some "documentation") [] "please fix" "thanks").labelOf = none ∧
    (engineDecide ["governance", "documentation"] itemLabeled ["Category"]
      (some "documentation") [] "please fix" "thanks").commentOf = none :=
  ⟨(at_most_one_label ["governance", "documentation"] itemLabeled ["Category"]
      (some "documentation") [] "please fix" "thanks"
      ⟨"governance", by decide, by decide⟩).2.1,
   (at_most_one_label ["governance", "documentation"] itemLabeled ["Category"]
      (some "documentation") [] "please fix" "thanks"
      ⟨"governance", by decide, by decide⟩).2.2⟩

/-- A concrete open unlabeled item with one human (non-author,
non-bot-marked) comment. -/
def itemWithHuman : PRData :=
  { number := 8, title := "Fix typo", body := "body", state := "OPEN",
    author := "alice", labels := [], files := ["README.md"],
    comments := [{ author := "bob", body := "Taking a look." }],
    commits := [], statusCheckRollup := "SUCCESS" }

/-- C4: whenever some comment has an author different from the item
author and a body without the bot-identity marker, the detector reports
human involvement and the engine emits `Skip` (it does not comment),
even when guideline violations are present; and the detector returns
false on an empty comment list. -/
theorem human_deference (taxonomy : List String) (item : PRData)
    (missing : List String) (selected : Option String)
    (priorBot : List (List String)) (commentText ackText : String)
    (h : ∃ c ∈ item.comments,
      c.author ≠ item.author ∧ ¬ (BOT_MARKER.data <:+: c.body.data)) :
    humanInvolved item.author item.comments = true ∧
    (∃ r, engineDecide taxonomy item missing selected priorBot commentText
        ackText = .Skip r) ∧
    (engineDecide taxonomy item missing selected priorBot commentText
        ackText).commentOf = none ∧
    (∀ a : String, humanInvolved a [] = false) := by
  have hinv : humanInvolved item.author item.comments = true := by
    rcases h with ⟨c, hc, hau, hbody⟩
    refine List.any_eq_true.mpr ⟨c, hc, ?_⟩
    simp [hau, hbody]
  refine ⟨hinv, ?_⟩
  have hempty : ∀ a : String, humanInvolved a [] = false := fun a => rfl
  by_cases hs : item.state = "CLOSED"
  · refine ⟨⟨"closed", ?_⟩, ?_, hempty⟩ <;>
      simp [engineDecide, hs, Decision.commentOf]
  · by_cases hl : item.labels.any (fun l => decide (l ∈ taxonomy))
    · refine ⟨⟨"already labeled", ?_⟩, ?_, hempty⟩ <;>
        simp [engineDecide, hs, hl, Decision.commentOf]
    · refine ⟨⟨"human involved", ?_⟩, ?_, hempty⟩ <;>
        simp [engineDecide, hs, hl, hinv, Decision.commentOf]

/-- Witness for `human_deference` at a concrete input. -/
theorem human_deference_witness :
    humanInvolved itemWithHuman.author itemWithHuman.comments = true ∧
    (engineDecide ["governance"] itemWithHuman ["Category"] none []
      "please fix" "thanks").commentOf = none :=
  ⟨(human_deference ["governance"] itemWithHuman ["Category"] none []
      "please fix" "thanks"
      ⟨{ author := "bob", body := "Taking a look." }, by decide, by decide,
        by decide⟩).1,
   (human_deference ["governance"] itemWithHuman ["Category"] none []
      "please fix" "thanks"
      ⟨{ author := "bob", body := "Taking a look." }, by decide, by decide,
        by decide⟩).2.2.1⟩

/-- C5: when the most recent bot comment already raised every
currently-missing guideline section and that set is non-empty and
unchanged, `should_comment` returns false on the repeated run — no
second comment about the same unresolved issues. -/
theorem duplicate_comment_suppressed (proposed : String)
    (prior : List (List String)) (raised current : List String)
    (hlast : prior.getLast? = some raised)
    (hne : current ≠ [])
    (hsub : ∀ s ∈ current, s ∈ raised) :
    should_comment proposed prior current = false := by
  have h1 : current.isEmpty = false := by
    simpa [List.isEmpty_iff] using hne
  have h2 : current.all (fun s => decide (s ∈ raised)) = true :=
    List.all_eq_true.mpr (fun s hs => decide_eq_true (hsub s hs))
  simp [should_comment, hlast, h1, h2]

/-- Witness for `duplicate_comment_suppressed` at a concrete input. -/
theorem duplicate_comment_suppressed_witness :
    should_comment "please add a description" [["Description"]]
      ["Description"] = false :=
  duplicate_comment_suppressed "please add a description" [["Description"]]
    ["Description"] ["Description"] rfl (by decide) (by decide)

/-- C6: when the previously-raised missing sections are resolved and a
section not previously raised is now missing, `should_comment` returns
true, and the engine (for an open, unlabeled item with no human
involvement) emits the comment about the newly surfaced section. -/
theorem new_issue_allows_comment (proposed : String)
    (prior : List (List String)) (raised current : List String)
    (taxonomy : List String) (item : PRData) (selected : Option String)
    (ackText : String)
    (hlast : prior.getLast? = some raised)
    (hres : ∀ a ∈ raised, a ∉ current)
    (hnew : ∃ b ∈ current, b ∉ raised) :
    should_comment proposed prior current = true ∧
    (item.state ≠ "CLOSED" → (∀ l ∈ item.labels, l ∉ taxonomy) →
      humanInvolved item.author item.comments = false →
      engineDecide taxonomy item current selected prior proposed ackText =
        .Comment proposed) := by
  have hne : current ≠ [] := by
    rcases hnew with ⟨b, hb, _⟩
    exact List.ne_nil_of_mem hb
  have h1 : current.isEmpty = false := by
    simpa [List.isEmpty_iff] using hne
  have h2 : current.all (fun s => decide (s ∈ raised)) = false := by
    rcases hnew with ⟨b, hb, hnb⟩
    refine Bool.eq_false_iff.mpr (fun hall => hnb ?_)
    simpa using List.all_eq_true.mp hall b hb
  have hsc : should_comment proposed prior current = true := by
    simp [should_comment, hlast, h1, h2]
  refine ⟨hsc, fun hs hlab hinv => ?_⟩
  have hany : item.labels.any (fun l => decide (l ∈ taxonomy)) = false := by
    refine Bool.eq_false_iff.mpr (fun hany => ?_)
    rcases List.any_eq_true.mp hany with ⟨l, hl, hdec⟩
    exact hlab l hl (by simpa using hdec)
  simp [engineDecide, hs, hany, hinv, h1, hsc]

/-- Witness for `new_issue_allows_comment` at a concrete input. -/
theorem new_issue_allows_comment_witness :
    should_comment "please add a category" [["Description"]]
      ["Category"] = true :=
  (new_issue_allows_comment "please add a category" [["Description"]]
    ["Description"] ["Category"] ["governance"] itemLabeled none "thanks"
    rfl (by decide) ⟨"Category", by decide, by decide⟩).1

end UCPTriage
